import Mathlib

/-!
Verification of the `economic_system` agent-based simulation.

This file contains a shallow embedding of the Python sources
(`agent_industry.py`, `agent_worker.py`, `model.py`) and proofs about it.
Python floats are idealised as exact rationals (`ℚ`), Python ints as `ℤ`,
and code that can raise an exception is embedded in `Except PyErr`.
Random draws made by the code (`np.random.uniform`, `np.random.choice`,
`np.random.randint`) are passed in as explicit parameters; theorems that
depend on a draw carry the range constraint the library guarantees as a
hypothesis.
-/

namespace EconomicSystem

/-- Python exception kinds that the embedded code can raise. -/
inductive PyErr
  | typeError
  | valueError
  | attributeError
  | zeroDivisionError
  | indexError
deriving DecidableEq

/-- State of an `IndustryAgent` (agent_industry.py, `__init__`): position,
sector tag (`0` industry, `1` services, `-1` bankrupt) and the financial
fields. -/
structure Firm where
  pos : ℤ × ℤ
  type : ℤ
  opex : ℚ
  capex : ℚ
  salary : ℚ
  employees : ℤ
  profit_rate : ℚ
  products_value : ℚ
  sells : ℚ
  stocks : ℚ
  profit : ℚ
  tax_rate : ℚ
  taxes : ℚ
  profit_after_tax : ℚ
  value : ℚ
deriving DecidableEq

namespace IndustryAgent

/-- Embedding of `IndustryAgent.run_production`: products value is the opex scaled by the
profit rate, plus the stocks carried over. -/
def run_production (f : Firm) : Firm :=
  { f with products_value := f.profit_rate * f.opex + f.stocks }

/-- Embedding of `IndustryAgent.run_sells`: `sellsDraw` is the value drawn from the
uniform distribution on `[0.94·pv, pv]` (type 0) or `[0.90·pv, pv]`
(otherwise); stocks accumulate the unsold remainder and profit is sells
minus opex. -/
def run_sells (f : Firm) (sellsDraw : ℚ) : Firm :=
  { f with sells := sellsDraw,
           stocks := f.stocks + (f.products_value - sellsDraw),
           profit := sellsDraw - f.opex }

/-- Embedding of `IndustryAgent.pay_taxes`: taxes on positive profit only, the profit
after tax is added to capex, and `value` is recomputed as `opex + capex`. -/
def pay_taxes (f : Firm) : Firm :=
  let taxes : ℚ := if f.profit > 0 then f.tax_rate * f.profit else 0
  let pat : ℚ := f.profit - taxes
  let capex : ℚ := f.capex + pat
  { f with taxes := taxes,
           profit_after_tax := pat,
           capex := capex,
           value := f.opex + capex }

/-- The `investment_cost` (equal to `employee_cost`) of
`investment_decision`: `self.opex / self.employees`. -/
def employee_cost (f : Firm) : ℚ := f.opex / (f.employees : ℚ)

/-- The `max_hires` of the hiring branch:
`int(np.floor(self.capex / investment_cost))`. -/
def max_hires (f : Firm) : ℤ := ⌊f.capex / employee_cost f⌋

/-- The `max_fires` of the firing branch:
`int(np.floor(np.abs(self.capex) / employee_cost))`. -/
def max_fires (f : Firm) : ℤ := ⌊|f.capex| / employee_cost f⌋

/-- Embedding of `IndustryAgent.investment_decision`: `coin` is the draw of
`np.random.choice([0, 1])` (`true` = 1), `hiresDraw` the draw of
`np.random.randint(1, max_hires+1)` and `firesDraw` the draw of
`np.random.randint(0, max_fires+1)`. -/
def investment_decision (f : Firm) (coin : Bool) (hiresDraw firesDraw : ℤ) : Firm :=
  if f.capex > 0 then
    if coin then
      if max_hires f > 0 then
        { f with capex := f.capex - (hiresDraw : ℚ) * employee_cost f,
                 opex := f.opex + (hiresDraw : ℚ) * employee_cost f,
                 employees := f.employees + hiresDraw }
      else f
    else f
  else
    { f with opex := f.opex - (firesDraw : ℚ) * employee_cost f,
             employees := f.employees - firesDraw }

/-- The bankruptcy check at the end of `IndustryAgent.step`:
`if self.capex < 0: if -1*self.capex/self.opex > 0.05: self.type = -1`.
The threshold is the literal `0.05` in agent_industry.py. -/
def bankrupt_check (f : Firm) : Firm :=
  if f.capex < 0 then
    if -1 * f.capex / f.opex > 5 / 100 then { f with type := -1 } else f
  else f

/-- The firm state after production, sells and taxes, right before the
invest-or-contract decision. -/
def afterTax (f : Firm) (sellsDraw : ℚ) : Firm :=
  pay_taxes (run_sells (run_production f) sellsDraw)

/-- The guarded phase block of `IndustryAgent.step`: production, sells,
taxes and the investment decision run only while the firm is not
bankrupt. -/
def phases (f : Firm) (sellsDraw : ℚ) (coin : Bool) (hiresDraw firesDraw : ℤ) : Firm :=
  if f.type ≠ -1 then
    investment_decision (afterTax f sellsDraw) coin hiresDraw firesDraw
  else f

/-- Embedding of `IndustryAgent.step`: the guarded phases followed by the bankruptcy
check, which runs for every firm. -/
def step (f : Firm) (sellsDraw : ℚ) (coin : Bool) (hiresDraw firesDraw : ℤ) : Firm :=
  bankrupt_check (phases f sellsDraw coin hiresDraw firesDraw)

/-- Modelled from the spec: the bankruptcy transition as the spec states
it — the firm becomes Bankrupt when `capex < 0` and `|capex| / opex`
exceeds the configured bankruptcy threshold (the `bankrupt` model
parameter as a fraction of opex, default 5%). -/
def bankrupt_check_spec (threshold : ℚ) (f : Firm) : Firm :=
  if f.capex < 0 ∧ |f.capex| / f.opex > threshold then { f with type := -1 } else f

end IndustryAgent

/-- A concrete firm for the spec's worked scenario: `opex = 1,000,000`,
`capex = 0`, `stocks = 0`, `profit_rate = 1.05`, sector Services (type 1),
`tax_rate = 0.2`. -/
def scenarioFirm : Firm :=
  { pos := (0, 0), type := 1, opex := 1000000, capex := 0, salary := 2000,
    employees := 500, profit_rate := 21 / 20, products_value := 0,
    sells := 0, stocks := 0, profit := 0, tax_rate := 1 / 5, taxes := 0,
    profit_after_tax := 0, value := 1000000 }

/-- State of a `WorkerAgent` (agent_worker.py, `__init__`). Note: the class
carries `state`, not `type`, and no `value` or `employees` attribute. -/
structure Worker where
  pos : ℤ × ℤ
  state : ℤ
  skill : ℤ
  worth : ℚ
  salary : ℚ
  income_tax : ℚ
  employer : ℤ
  experience : ℤ
  idle_time : ℤ
deriving DecidableEq

/-- Embedding of `WorkerAgent.__init__` with employment state `st`. -/
def mkWorker (pos : ℤ × ℤ) (st : ℤ) : Worker :=
  { pos := pos, state := st, skill := 0, worth := 1000, salary := 600,
    income_tax := 3 / 10 * 600, employer := 0, experience := 0, idle_time := 0 }

/-- Embedding of `WorkerAgent.step`: it calls `self.career_decision()`, a method defined
nowhere in `WorkerAgent` or its base class, so Python raises
`AttributeError`. -/
def workerStep (_w : Worker) : Except PyErr Worker :=
  .error .attributeError

/-- An entry of the model scheduler: either an industry agent or a worker
agent (`self.schedule.add` is called for both in `model.py`). -/
inductive SchedAgent
  | firm (f : Firm)
  | worker (w : Worker)
deriving DecidableEq

/-- Python attribute access `agent.type`: firms have it, workers do not
(AttributeError). -/
def agentType : SchedAgent → Except PyErr ℤ
  | .firm f => .ok f.type
  | .worker _ => .error .attributeError

/-- Python attribute access `agent.value`. -/
def agentValue : SchedAgent → Except PyErr ℚ
  | .firm f => .ok f.value
  | .worker _ => .error .attributeError

/-- Python attribute access `agent.employees`. -/
def agentEmployees : SchedAgent → Except PyErr ℤ
  | .firm f => .ok f.employees
  | .worker _ => .error .attributeError

/-- The list comprehension
`[agent.value for agent in model.schedule.agents if agent.type != -1]`
of `compute_gdp`: the filter condition reads `agent.type` on every agent
and the element expression reads `agent.value`. -/
def gdpValues : List SchedAgent → Except PyErr (List ℚ)
  | [] => .ok []
  | a :: rest => do
      let t ← agentType a
      if t ≠ -1 then
        let v ← agentValue a
        let vs ← gdpValues rest
        .ok (v :: vs)
      else
        gdpValues rest

/-- Embedding of `compute_gdp` (model.py): the sum of `agent.value` over scheduled
agents whose `type` is not `-1`. -/
def compute_gdp (agents : List SchedAgent) : Except PyErr ℚ := do
  let vs ← gdpValues agents
  .ok vs.sum

/-- The comprehension `[agent.employees for agent in agents]` (all agents). -/
def employeesAllList : List SchedAgent → Except PyErr (List ℤ)
  | [] => .ok []
  | a :: rest => do
      let e ← agentEmployees a
      let es ← employeesAllList rest
      .ok (e :: es)

/-- The comprehension `[agent.employees for agent in agents if agent.type != -1]`. -/
def employeesSolventList : List SchedAgent → Except PyErr (List ℤ)
  | [] => .ok []
  | a :: rest => do
      let t ← agentType a
      if t ≠ -1 then
        let e ← agentEmployees a
        let es ← employeesSolventList rest
        .ok (e :: es)
      else
        employeesSolventList rest

/-- The comprehension `[agent.employees for agent in agents if agent.type == industry_type]`. -/
def employeesSectorList (industry_type : ℤ) : List SchedAgent → Except PyErr (List ℤ)
  | [] => .ok []
  | a :: rest => do
      let t ← agentType a
      if t = industry_type then
        let e ← agentEmployees a
        let es ← employeesSectorList industry_type rest
        .ok (e :: es)
      else
        employeesSectorList industry_type rest

/-- Embedding of `compute_employment` (model.py): with `type == 1` the sum excludes
bankrupt companies, otherwise it sums over every scheduled agent. -/
def compute_employment (agents : List SchedAgent) (type : ℤ) : Except PyErr ℤ :=
  if type = 1 then do
    let es ← employeesSolventList agents
    .ok es.sum
  else do
    let es ← employeesAllList agents
    .ok es.sum

/-- The Python builtin `max` on a list: raises `ValueError` on an empty
sequence. -/
def pyMax : List ℤ → Except PyErr ℤ
  | [] => .error .valueError
  | x :: xs => .ok (xs.foldl max x)

/-- Embedding of `max_size_industry` (model.py): the maximum `employees` over the firms
of a sector (`industry_type ≠ -2`) or over all non-bankrupt agents
(`industry_type = -2`); the `max` builtin is applied with no emptiness
guard. -/
def max_size_industry (agents : List SchedAgent) (industry_type : ℤ) :
    Except PyErr ℤ := do
  let es ←
    if industry_type ≠ -2 then employeesSectorList industry_type agents
    else employeesSolventList agents
  pyMax es

/-- The per-agent rows of `DataCollector.collect`: the agent reporters
read `employees`, `value` and `type` on every scheduled agent. -/
def agentRowsCheck : List SchedAgent → Except PyErr Unit
  | [] => .ok ()
  | a :: rest => do
      let _ ← agentEmployees a
      let _ ← agentValue a
      let _ ← agentType a
      agentRowsCheck rest

/-- Embedding of `self.datacollector.collect(self)`: it evaluates the model reporters
(`compute_gdp`, `compute_employment` twice with its default `type=0`) and
the agent reporters. -/
def collect (agents : List SchedAgent) : Except PyErr Unit := do
  let _ ← compute_gdp agents
  let _ ← compute_employment agents 0
  let _ ← compute_employment agents 0
  agentRowsCheck agents

/-- The state of `EconomicSystemModel` that `step` touches: the scheduled
agents, the scheduler's step counter, the configured horizon, the
`running` flag and the cached scalar metrics. -/
structure MState where
  agents : List SchedAgent
  steps : ℤ
  nsteps : ℤ
  running : Bool
  gdp : ℚ
  work_force : ℤ
  employment : ℤ
  max_size_services : ℤ
  max_size_industry : ℤ
  max_size_industries : ℤ
deriving DecidableEq

/-- The random draws one firm consumes during its `step`. -/
structure Draws where
  sells : ℚ
  coin : Bool
  hires : ℤ
  fires : ℤ
deriving DecidableEq

/-- The agent loop of `RandomActivation.step`: each scheduled agent steps
once, in list order (the list stands for the shuffled activation order).
A raise leaves the earlier agents stepped and the later ones untouched,
as in Python. -/
def stepAgents (d : ℕ → Draws) : List SchedAgent → ℕ → List SchedAgent × Option PyErr
  | [], _ => ([], none)
  | .firm f :: rest, i =>
      let g := IndustryAgent.step f (d i).sells (d i).coin (d i).hires (d i).fires
      let (r, e) := stepAgents d rest (i + 1)
      (.firm g :: r, e)
  | .worker w :: rest, _ =>
      match workerStep w with
      | .error e => (.worker w :: rest, some e)
      | .ok w' => (.worker w' :: rest, none)

/-- The metric block of `EconomicSystemModel.step`: the collector and the
six cached scalars are recomputed in source order. An exception leaves the
fields assigned so far mutated (Python object semantics) and is reported
in the second component. -/
def updateMetrics (s : MState) : MState × Option PyErr :=
  match collect s.agents with
  | .error e => (s, some e)
  | .ok _ =>
    match compute_gdp s.agents with
    | .error e => (s, some e)
    | .ok g =>
      match compute_employment s.agents 0 with
      | .error e => ({ s with gdp := g }, some e)
      | .ok wf =>
        match compute_employment s.agents 1 with
        | .error e => ({ s with gdp := g, work_force := wf }, some e)
        | .ok emp =>
          match max_size_industry s.agents 1 with
          | .error e =>
            ({ s with gdp := g, work_force := wf, employment := emp }, some e)
          | .ok mss =>
            match max_size_industry s.agents 0 with
            | .error e =>
              ({ s with
                  gdp := g
                  work_force := wf
                  employment := emp
                  max_size_services := mss }, some e)
            | .ok msi =>
              match max_size_industry s.agents (-2) with
              | .error e =>
                ({ s with
                    gdp := g
                    work_force := wf
                    employment := emp
                    max_size_services := mss
                    max_size_industry := msi }, some e)
              | .ok msa =>
                ({ s with
                    gdp := g
                    work_force := wf
                    employment := emp
                    max_size_services := mss
                    max_size_industry := msi
                    max_size_industries := msa }, none)

/-- Embedding of `EconomicSystemModel.step`: the scheduler steps every agent and
increments its counter, the metrics are recomputed, and `running` is set
to `False` exactly when the counter equals `nsteps`; a raise anywhere
skips the halt check. -/
def modelStep (s : MState) (d : ℕ → Draws) : MState × Option PyErr :=
  match stepAgents d s.agents 0 with
  | (ags, some e) => ({ s with agents := ags }, some e)
  | (ags, none) =>
    match updateMetrics { s with agents := ags, steps := s.steps + 1 } with
    | (s2, some e) => (s2, some e)
    | (s2, none) =>
      if s2.steps = s2.nsteps then ({ s2 with running := false }, none)
      else (s2, none)

/-- A Python number: the int/float distinction matters because
`range(...)` accepts only ints. -/
inductive PyNum
  | int (n : ℤ)
  | float (q : ℚ)
deriving DecidableEq

/-- Numeric value of a Python number. -/
def PyNum.val : PyNum → ℚ
  | .int n => (n : ℚ)
  | .float q => q

/-- Python multiplication: `int * int` is an int, anything involving a
float is a float. -/
def pyMul (a b : PyNum) : PyNum :=
  match a, b with
  | .int m, .int n => .int (m * n)
  | _, _ => .float (a.val * b.val)

/-- Python `range(a, b)` as a list of ints (empty when `b ≤ a`). -/
def pyRangeList (a b : ℤ) : List ℤ :=
  (List.range (b - a).toNat).map (fun i : ℕ => a + (i : ℤ))

/-- Python `range(n)` applied to a number: raises `TypeError` unless the
argument is an int. -/
def pyRangeOf : PyNum → Except PyErr (List ℤ)
  | .int n => .ok (pyRangeList 0 n)
  | .float _ => .error .typeError

/-- Python scalar `/`: raises `ZeroDivisionError` on a zero denominator. -/
def pyDivQ (a b : ℚ) : Except PyErr ℚ :=
  if b = 0 then .error .zeroDivisionError else .ok (a / b)

/-- Scalar `np.round`: round half to even. -/
def pyRound (q : ℚ) : ℤ :=
  let f : ℤ := ⌊q⌋
  let r : ℚ := q - (f : ℚ)
  if r < 1 / 2 then f
  else if r > 1 / 2 then f + 1
  else if f % 2 = 0 then f else f + 1

/-- The empirical placement-probability vector of `model.py`: the draws
are rounded, clipped to `[0, n-1]`, and a relative frequency is computed
for each `i` in `range(0, n-1)` — one entry short of the `n` cells. -/
def pVec (draws : List ℚ) (n : ℤ) : List ℚ :=
  let kept := (draws.map (fun q => ((pyRound q : ℤ) : ℚ))).filter
    (fun v => 0 ≤ v ∧ v ≤ (n : ℚ) - 1)
  (pyRangeList 0 (n - 1)).map
    (fun i : ℤ => ((kept.filter (fun v => v = (i : ℚ))).length : ℚ) / (kept.length : ℚ))

/-- Validation of `np.random.choice(vals, size, p=p)`: `p` must have one
entry per value, its entries must be nonnegative and sum to 1, and the
requested size must not be negative; the draw result itself is the `out`
parameter. -/
def npChoiceP (nvals : ℕ) (size : ℤ) (p : List ℚ) (out : List ℤ) :
    Except PyErr (List ℤ) :=
  if nvals ≠ p.length then .error .valueError
  else if p.any (fun q => q < 0) then .error .valueError
  else if p.sum ≠ 1 then .error .valueError
  else if size < 0 then .error .valueError
  else .ok out

/-- Embedding of `np.random.choice(np.arange(n), p=p)`: numpy raises `ValueError` when
`p` does not have one entry per element of `np.arange(n)`. -/
def npArangeChoice (n : ℤ) (p : List ℚ) (draw : ℤ) : Except PyErr ℤ :=
  if (pyRangeList 0 n).length ≠ p.length then .error .valueError
  else if p.any (fun q => q < 0) then .error .valueError
  else if p.sum ≠ 1 then .error .valueError
  else .ok draw

/-- The signature fact that `IndustryAgent.__init__` accepts four positional arguments after
`self`: `pos`, `model`, `agent_type`, `tax_rates`. -/
def industryAgentParamCount : ℕ := 4

/-- The Python call protocol: a call with a number of positional arguments
different from the parameter count raises `TypeError` before the body
runs. -/
def checkArity (params given : ℕ) : Except PyErr Unit :=
  if given = params then .ok () else .error .typeError

/-- Python list indexing `l[i]` for `i ≥ 0`: `IndexError` out of range. -/
def pyIndex (l : List ℤ) (i : ℕ) : Except PyErr ℤ :=
  match l.get? i with
  | some v => .ok v
  | none => .error .indexError

/-- The constructor parameters of `EconomicSystemModel`. -/
structure Config where
  width : ℤ
  height : ℤ
  n_workers : PyNum
  unemployment : ℚ
  services_pc : ℚ
  avg_opex : ℚ
  bankrupt : ℚ
  salary_industry : ℚ
  salary_services : ℚ
  profit_industry : ℚ
  profit_services : ℚ
  tax_industry : ℚ
  tax_services : ℚ
  nsteps : ℤ
deriving DecidableEq

/-- The default parameter values of `EconomicSystemModel.__init__`. -/
def defaultConfig : Config :=
  { width := 20, height := 10, n_workers := .float (1 / 10),
    unemployment := 1 / 20, services_pc := 3 / 5, avg_opex := 1,
    bankrupt := 5, salary_industry := 1000, salary_services := 2000,
    profit_industry := 101 / 100, profit_services := 51 / 50,
    tax_industry := 1 / 10, tax_services := 1 / 5, nsteps := 24 }

/-- The default configuration with the worker count set to zero. -/
def zeroWorkersConfig : Config :=
  { defaultConfig with n_workers := .float 0 }

/-- The default configuration with a negative grid width. -/
def negWidthConfig : Config :=
  { defaultConfig with width := -3 }

/-- The body of the worker-placement loop: draw a cell from the
probability vectors and build a `WorkerAgent` with `agent_state = 1`. -/
def placeWorkers (cfg : Config) (px py : List ℚ) (wD : ℕ → ℤ × ℤ) :
    List ℤ → Except PyErr (List Worker)
  | [] => .ok []
  | i :: rest => do
      let x ← npArangeChoice cfg.width px (wD i.toNat).1
      let y ← npArangeChoice cfg.height py (wD i.toNat).2
      let ws ← placeWorkers cfg px py wD rest
      .ok (mkWorker (x, y) 1 :: ws)

/-- The cells of `self.grid.coord_iter()`: the grid was built as
`MultiGrid(height, width)`, so its first axis ranges over `height`. -/
def gridCells (cfg : Config) : List (ℤ × ℤ) :=
  (pyRangeList 0 cfg.height).flatMap
    (fun x => (pyRangeList 0 cfg.width).map (fun y => (x, y)))

/-- The body of the company-placement loop: index the pre-drawn sector
array, then call `IndustryAgent` with eight positional arguments
(`pos, model, agent_type, avg_opex, bankrupt, salaries, profits,
tax_rates`) against a four-parameter `__init__`. -/
def placeFirms (agent_types : List ℤ) : List (ℤ × ℤ) → ℕ → Except PyErr (List Firm)
  | [], _ => .ok []
  | _cell :: rest, i => do
      let _t ← pyIndex agent_types i
      match checkArity industryAgentParamCount 8 with
      | .error e => .error e
      | .ok _ =>
        -- dead branch: the arity check above always raises (8 ≠ 4),
        -- so `IndustryAgent.__init__` is never entered from model.py
        match placeFirms agent_types rest (i + 1) with
        | .error e => .error e
        | .ok fs => .ok fs

/-- Embedding of `EconomicSystemModel.__init__` (model.py): the analytic population
probabilities, the sector draw, the placement-probability vectors, the
worker loop, the company loop and the initial metrics, in source order.
`yD`/`xD` are the Gaussian placement draws, `tD` the sector draw output
and `wD` the per-worker cell draws. -/
def modelInit (cfg : Config) (yD xD : List ℚ) (tD : List ℤ) (wD : ℕ → ℤ × ℤ) :
    Except PyErr MState := do
  let n_workersN := pyMul cfg.n_workers (.float 1000000)
  let avg_salary : ℚ :=
    cfg.services_pc * (cfg.salary_services - cfg.salary_industry) + cfg.salary_industry
  let n_employed : ℚ := (1 - cfg.unemployment) * n_workersN.val
  let n_companies ← pyDivQ (n_employed * avg_salary) (cfg.avg_opex * 1000000)
  let cells : ℚ := ((cfg.height * cfg.width : ℤ) : ℚ)
  let p_industry ← pyDivQ ((1 - cfg.services_pc) * n_companies) cells
  let p_services ← pyDivQ (cfg.services_pc * n_companies) cells
  let frac ← pyDivQ n_companies cells
  let p_unemployed : ℚ := 1 - frac
  let agent_types ← npChoiceP 3 (cfg.height * cfg.width)
    [p_industry, p_services, p_unemployed] tD
  let py := pVec yD cfg.height
  let px := pVec xD cfg.width
  let workerIdx ← pyRangeOf n_workersN
  let workers ← placeWorkers cfg px py wD workerIdx
  let firms ← placeFirms agent_types (gridCells cfg) 0
  let agents := workers.map SchedAgent.worker ++ firms.map SchedAgent.firm
  let _ ← collect agents
  let gdp0 ← compute_gdp agents
  let wf0 ← compute_employment agents 0
  let emp0 ← compute_employment agents 1
  let mss ← max_size_industry agents 1
  let msi ← max_size_industry agents 0
  let msa ← max_size_industry agents (-2)
  .ok { agents := agents, steps := 0, nsteps := cfg.nsteps, running := true,
        gdp := gdp0, work_force := wf0, employment := emp0,
        max_size_services := mss, max_size_industry := msi,
        max_size_industries := msa }

/-- A solvent services firm in confortable shape, used to instantiate
universally quantified theorems. -/
def exFirm : Firm :=
  { pos := (0, 0), type := 1, opex := 1000, capex := 50, salary := 2000,
    employees := 10, profit_rate := 1001 / 1000, products_value := 0,
    sells := 0, stocks := 0, profit := 0, tax_rate := 1 / 5, taxes := 0,
    profit_after_tax := 0, value := 1050 }

/-- A solvent services firm whose step, under an achievable sells draw,
enters the firing branch with `max_fires ≥ 1`. -/
def cxFirm : Firm :=
  { pos := (0, 0), type := 1, opex := 1000, capex := 0, salary := 2000,
    employees := 1000, profit_rate := 1001 / 1000, products_value := 0,
    sells := 0, stocks := 0, profit := 0, tax_rate := 1 / 5, taxes := 0,
    profit_after_tax := 0, value := 1000 }

/-- A solvent services firm that a step with achievable draws drives just
past the hardcoded 5% threshold (post-phase `capex = -10`, `opex = 100`). -/
def cx2Firm : Firm :=
  { pos := (0, 0), type := 1, opex := 100, capex := -5, salary := 2000,
    employees := 1, profit_rate := 21 / 20, products_value := 0,
    sells := 0, stocks := 0, profit := 0, tax_rate := 1 / 5, taxes := 0,
    profit_after_tax := 0, value := 95 }

/-- An already-bankrupt firm used to evaluate aggregate and scheduler
behaviour. -/
def bankruptFirm : Firm :=
  { pos := (0, 0), type := -1, opex := 100, capex := -10, salary := 1000,
    employees := 3, profit_rate := 1, products_value := 0, sells := 0,
    stocks := 0, profit := 0, tax_rate := 1 / 10, taxes := 0,
    profit_after_tax := 0, value := 90 }

/-- Trivial draws for steps whose firms ignore them. -/
def d0 : ℕ → Draws := fun _ => { sells := 0, coin := false, hires := 0, fires := 0 }

/-- A model state one step from its horizon whose only firm is bankrupt. -/
def s0 : MState :=
  { agents := [SchedAgent.firm bankruptFirm], steps := 0, nsteps := 1,
    running := true, gdp := 0, work_force := 3, employment := 0,
    max_size_services := 0, max_size_industry := 0, max_size_industries := 0 }

/-- Returns `true` exactly when the embedded Python computation raised. -/
def raises {α : Type} : Except PyErr α → Bool
  | .ok _ => false
  | .error _ => true

namespace IndustryAgent

lemma bankrupt_check_opex (f : Firm) : (bankrupt_check f).opex = f.opex := by
  unfold bankrupt_check; split_ifs <;> rfl

lemma bankrupt_check_capex (f : Firm) : (bankrupt_check f).capex = f.capex := by
  unfold bankrupt_check; split_ifs <;> rfl

lemma bankrupt_check_value (f : Firm) : (bankrupt_check f).value = f.value := by
  unfold bankrupt_check; split_ifs <;> rfl

lemma bankrupt_check_employees (f : Firm) : (bankrupt_check f).employees = f.employees := by
  unfold bankrupt_check; split_ifs <;> rfl

lemma invest_value (f : Firm) (c : Bool) (hi fr : ℤ) :
    (investment_decision f c hi fr).value = f.value := by
  unfold investment_decision; split_ifs <;> rfl

lemma invest_type (f : Firm) (c : Bool) (hi fr : ℤ) :
    (investment_decision f c hi fr).type = f.type := by
  unfold investment_decision; split_ifs <;> rfl

lemma invest_sum (f : Firm) (c : Bool) (hi fr : ℤ) :
    (investment_decision f c hi fr).opex + (investment_decision f c hi fr).capex =
      f.opex + f.capex -
        (if f.capex > 0 then 0 else (fr : ℚ) * employee_cost f) := by
  unfold investment_decision; split_ifs <;> simp <;> ring

lemma afterTax_value (f : Firm) (s : ℚ) :
    (afterTax f s).value = (afterTax f s).opex + (afterTax f s).capex := by
  simp [afterTax, pay_taxes, run_sells, run_production]

lemma afterTax_opex (f : Firm) (s : ℚ) : (afterTax f s).opex = f.opex := by
  simp [afterTax, pay_taxes, run_sells, run_production]

lemma afterTax_employees (f : Firm) (s : ℚ) : (afterTax f s).employees = f.employees := by
  simp [afterTax, pay_taxes, run_sells, run_production]

lemma afterTax_type (f : Firm) (s : ℚ) : (afterTax f s).type = f.type := by
  simp [afterTax, pay_taxes, run_sells, run_production]

lemma afterTax_capex (f : Firm) (s : ℚ) :
    (afterTax f s).capex =
      f.capex + ((s - f.opex) - (if s - f.opex > 0 then f.tax_rate * (s - f.opex) else 0)) := by
  simp [afterTax, pay_taxes, run_sells, run_production]

lemma phases_type (f : Firm) (s : ℚ) (c : Bool) (hi fr : ℤ) :
    (phases f s c hi fr).type = f.type := by
  unfold phases
  split_ifs with h
  · rw [invest_type, afterTax_type]
  · rfl

end IndustryAgent

/-- C6: with the sells draw pinned at the maximum of its range
(`sells = products_value`), one pass of `run_production`, `run_sells`,
`pay_taxes` on the scenario firm yields exactly `profit = 50,000`,
`taxes = 10,000`, `profit_after_tax = 40,000`, `capex = 40,000` and
`value = 1,040,000`. -/
theorem C6_scenario :
    (IndustryAgent.afterTax scenarioFirm
        (IndustryAgent.run_production scenarioFirm).products_value).profit = 50000 ∧
    (IndustryAgent.afterTax scenarioFirm
        (IndustryAgent.run_production scenarioFirm).products_value).taxes = 10000 ∧
    (IndustryAgent.afterTax scenarioFirm
        (IndustryAgent.run_production scenarioFirm).products_value).profit_after_tax = 40000 ∧
    (IndustryAgent.afterTax scenarioFirm
        (IndustryAgent.run_production scenarioFirm).products_value).capex = 40000 ∧
    (IndustryAgent.afterTax scenarioFirm
        (IndustryAgent.run_production scenarioFirm).products_value).value = 1040000 ∧
    (IndustryAgent.run_production scenarioFirm).products_value - scenarioFirm.opex = 50000 := by
  refine ⟨?_, ?_, ?_, ?_, ?_, ?_⟩ <;>
    simp [IndustryAgent.afterTax, IndustryAgent.run_production,
      IndustryAgent.run_sells, IndustryAgent.pay_taxes, scenarioFirm] <;> norm_num

/-- C1 counterexample: the solvent firm `cxFirm`, stepped with the
achievable sells draw 960 (inside `[0.90·pv, pv]`) and the achievable
firing draw 1 (inside `{0, …, max_fires}`), stays solvent but ends the
step with `value = 960` while `opex + capex = 959`: the firing branch
lowers `opex` after `pay_taxes` computed `value`, and `value` is not
re-derived. -/
theorem C1_counterexample :
    cxFirm.type = 1 ∧
    (90 / 100 : ℚ) * (IndustryAgent.run_production cxFirm).products_value ≤ 960 ∧
    (960 : ℚ) ≤ (IndustryAgent.run_production cxFirm).products_value ∧
    ¬ (IndustryAgent.afterTax cxFirm 960).capex > 0 ∧
    (0 : ℤ) ≤ 1 ∧
    (1 : ℤ) ≤ IndustryAgent.max_fires (IndustryAgent.afterTax cxFirm 960) ∧
    (IndustryAgent.step cxFirm 960 false 1 1).type = 1 ∧
    (IndustryAgent.step cxFirm 960 false 1 1).value ≠
      (IndustryAgent.step cxFirm 960 false 1 1).opex +
        (IndustryAgent.step cxFirm 960 false 1 1).capex := by
  norm_num [cxFirm, IndustryAgent.step, IndustryAgent.phases, IndustryAgent.afterTax,
    IndustryAgent.run_production, IndustryAgent.run_sells, IndustryAgent.pay_taxes,
    IndustryAgent.investment_decision, IndustryAgent.bankrupt_check,
    IndustryAgent.max_fires, IndustryAgent.max_hires, IndustryAgent.employee_cost]

/-- C1 (amended): after a step of a solvent firm, `value` equals
`opex + capex` as recomputed by `pay_taxes`; the hiring branch moves the
hiring cost between `capex` and `opex` so the identity survives it, but
the firing branch lowers `opex` by `fires × employee_cost` without
re-deriving `value`, so at the end of the step
`value = opex + capex + fires × employee_cost` in that branch. -/
theorem C1_value_after_step (f : Firm) (s : ℚ) (coin : Bool) (hi fr : ℤ)
    (h : f.type ≠ -1) :
    (IndustryAgent.step f s coin hi fr).value =
      (IndustryAgent.step f s coin hi fr).opex +
        (IndustryAgent.step f s coin hi fr).capex +
        (if (IndustryAgent.afterTax f s).capex > 0 then 0
         else (fr : ℚ) * IndustryAgent.employee_cost (IndustryAgent.afterTax f s)) := by
  unfold IndustryAgent.step IndustryAgent.phases
  rw [if_pos h, IndustryAgent.bankrupt_check_value, IndustryAgent.bankrupt_check_opex,
    IndustryAgent.bankrupt_check_capex, IndustryAgent.invest_value,
    IndustryAgent.invest_sum, IndustryAgent.afterTax_value]
  ring

/-- Witness for C1: the amended identity evaluated on the concrete firing
step of `cxFirm`. -/
theorem C1_witness :
    (IndustryAgent.step cxFirm 960 false 1 1).value =
      (IndustryAgent.step cxFirm 960 false 1 1).opex +
        (IndustryAgent.step cxFirm 960 false 1 1).capex +
        (if (IndustryAgent.afterTax cxFirm 960).capex > 0 then 0
         else ((1 : ℤ) : ℚ) * IndustryAgent.employee_cost (IndustryAgent.afterTax cxFirm 960)) :=
  C1_value_after_step cxFirm 960 false 1 1 (by decide)

/-- C10: the hiring branch of `investment_decision` deducts from `capex`
exactly the amount it adds to `opex`, so `opex + capex` is unchanged for
every draw whenever `capex > 0` on entry. -/
theorem C10_hiring_preserves_sum (f : Firm) (coin : Bool) (hi fr : ℤ)
    (hcapex : 0 < f.capex) (hemp : 1 ≤ f.employees) :
    (IndustryAgent.investment_decision f coin hi fr).opex +
      (IndustryAgent.investment_decision f coin hi fr).capex =
      f.opex + f.capex := by
  rw [IndustryAgent.invest_sum, if_pos hcapex]
  ring

/-- Witness for C10 at a concrete firm taking the hiring branch. -/
theorem C10_witness :
    (IndustryAgent.investment_decision exFirm true 2 0).opex +
      (IndustryAgent.investment_decision exFirm true 2 0).capex =
      exFirm.opex + exFirm.capex :=
  C10_hiring_preserves_sum exFirm true 2 0 (by norm_num [exFirm]) (by norm_num [exFirm])

lemma ok_bind {α β : Type} (a : α) (g : α → Except PyErr β) :
    (Except.ok a >>= g) = g a := rfl

lemma error_bind {α β : Type} (e : PyErr) (g : α → Except PyErr β) :
    ((Except.error e : Except PyErr α) >>= g) = Except.error e := rfl

/-- C2 counterexample: with the `bankrupt` parameter configured to 50
(threshold 1/2 of opex), the claim predicts no transition for the
post-phase state `capex = -10, opex = 100` (ratio 0.1 ≤ 0.5), but the
code — whose check uses the literal `0.05` and never receives the
parameter — sets `type = -1`. The draws used are achievable: the sells
draw 95 lies in `[0.90·pv, pv]` and the firing draw 0 in
`{0, …, max_fires}`. -/
theorem C2_counterexample :
    cx2Firm.type = 1 ∧
    (90 / 100 : ℚ) * (IndustryAgent.run_production cx2Firm).products_value ≤ 95 ∧
    (95 : ℚ) ≤ (IndustryAgent.run_production cx2Firm).products_value ∧
    ¬ (IndustryAgent.afterTax cx2Firm 95).capex > 0 ∧
    (0 : ℤ) ≤ IndustryAgent.max_fires (IndustryAgent.afterTax cx2Firm 95) ∧
    (IndustryAgent.phases cx2Firm 95 false 1 0).capex = -10 ∧
    (IndustryAgent.phases cx2Firm 95 false 1 0).opex = 100 ∧
    (IndustryAgent.step cx2Firm 95 false 1 0).type = -1 ∧
    (IndustryAgent.bankrupt_check_spec (1 / 2)
        (IndustryAgent.phases cx2Firm 95 false 1 0)).type = 1 := by
  norm_num [cx2Firm, IndustryAgent.step, IndustryAgent.phases, IndustryAgent.afterTax,
    IndustryAgent.run_production, IndustryAgent.run_sells, IndustryAgent.pay_taxes,
    IndustryAgent.investment_decision, IndustryAgent.bankrupt_check,
    IndustryAgent.bankrupt_check_spec, IndustryAgent.max_fires, IndustryAgent.max_hires,
    IndustryAgent.employee_cost]

/-- C2 (amended): a firm's type is `-1` at the end of `step` iff it was
already bankrupt or, after the phase block, `capex < 0` and
`|capex|/opex` exceeds the hardcoded `0.05` — the configured `bankrupt`
model parameter plays no role (the agent never receives it). In
particular, once `type = -1` no later step changes it back. -/
theorem C2_bankruptcy_iff (f : Firm) (s : ℚ) (c : Bool) (hi fr : ℤ) :
    (IndustryAgent.step f s c hi fr).type = -1 ↔
      (f.type = -1 ∨
        ((IndustryAgent.phases f s c hi fr).capex < 0 ∧
          -1 * (IndustryAgent.phases f s c hi fr).capex /
            (IndustryAgent.phases f s c hi fr).opex > 5 / 100)) := by
  unfold IndustryAgent.step IndustryAgent.bankrupt_check
  split_ifs with h1 h2
  · constructor
    · intro _
      exact Or.inr ⟨h1, h2⟩
    · intro _
      rfl
  · rw [IndustryAgent.phases_type]
    constructor
    · exact fun h => Or.inl h
    · rintro (h | ⟨_, hr⟩)
      · exact h
      · exact absurd hr h2
  · rw [IndustryAgent.phases_type]
    constructor
    · exact fun h => Or.inl h
    · rintro (h | ⟨hc, _⟩)
      · exact h
      · exact absurd hc h1

lemma gdpValues_firms (firms : List Firm) :
    gdpValues (firms.map SchedAgent.firm) =
      .ok ((firms.filter (fun f => f.type ≠ -1)).map Firm.value) := by
  induction firms with
  | nil => rfl
  | cons f fs ih =>
      by_cases h : f.type = -1 <;>
        simp [gdpValues, agentType, agentValue, h, ih, List.filter_cons,
          ok_bind]

lemma employeesAllList_firms (firms : List Firm) :
    employeesAllList (firms.map SchedAgent.firm) =
      .ok (firms.map Firm.employees) := by
  induction firms with
  | nil => rfl
  | cons f fs ih =>
      simp [employeesAllList, agentEmployees, ih, ok_bind]

lemma employeesSolventList_firms (firms : List Firm) :
    employeesSolventList (firms.map SchedAgent.firm) =
      .ok ((firms.filter (fun f => f.type ≠ -1)).map Firm.employees) := by
  induction firms with
  | nil => rfl
  | cons f fs ih =>
      by_cases h : f.type = -1 <;>
        simp [employeesSolventList, agentType, agentEmployees, h, ih,
          List.filter_cons, ok_bind]

lemma employeesSectorList_firms (t : ℤ) (firms : List Firm) :
    employeesSectorList t (firms.map SchedAgent.firm) =
      .ok ((firms.filter (fun f => f.type = t)).map Firm.employees) := by
  induction firms with
  | nil => rfl
  | cons f fs ih =>
      by_cases h : f.type = t <;>
        simp [employeesSectorList, agentType, agentEmployees, h, ih,
          List.filter_cons, ok_bind]

/-- C4 counterexample: a worker agent in the schedule makes `compute_gdp`
raise `AttributeError` (the `WorkerAgent` class has no `type` attribute),
rather than contributing nothing: with one worker and one solvent firm the
result is an exception, not the firm's value. -/
theorem C4_counterexample :
    compute_gdp [SchedAgent.worker (mkWorker (0, 0) 1), SchedAgent.firm exFirm] =
      .error .attributeError ∧
    exFirm.type ≠ -1 ∧
    ∀ q : ℚ, compute_gdp [SchedAgent.worker (mkWorker (0, 0) 1), SchedAgent.firm exFirm] ≠
      .ok q := by
  refine ⟨rfl, by decide, ?_⟩
  intro q h
  exact Except.noConfusion h

/-- C4 (amended): over a schedule containing only firm agents,
`compute_gdp` returns the sum of `value` over exactly the firms whose
type is not `-1`, and a fully bankrupt economy yields GDP 0; worker
agents, however, are not harmless — they raise (see the
counterexample). -/
theorem C4_gdp_firms_only (firms : List Firm) :
    compute_gdp (firms.map SchedAgent.firm) =
      .ok (((firms.filter (fun f => f.type ≠ -1)).map Firm.value).sum) ∧
    ((∀ f ∈ firms, f.type = -1) →
      compute_gdp (firms.map SchedAgent.firm) = .ok 0) := by
  have h1 : compute_gdp (firms.map SchedAgent.firm) =
      .ok (((firms.filter (fun f => f.type ≠ -1)).map Firm.value).sum) := by
    simp [compute_gdp, gdpValues_firms, ok_bind]
  refine ⟨h1, fun hall => ?_⟩
  rw [h1]
  have h2 : firms.filter (fun f => f.type ≠ -1) = [] := by
    simp only [List.filter_eq_nil_iff]
    intro f hf
    simp [hall f hf]
  rw [h2]
  rfl

/-- Witness for C4: the all-bankrupt case evaluated on a concrete
one-firm schedule. -/
theorem C4_witness :
    compute_gdp [SchedAgent.firm bankruptFirm] = .ok 0 :=
  (C4_gdp_firms_only [bankruptFirm]).2 (by decide)

/-- C8 counterexample: asking for the largest services firm of a schedule
whose only firm is bankrupt reaches Python's `max` on an empty sequence,
which raises `ValueError`: there is no guard, sentinel or fallback in
`max_size_industry`. -/
theorem C8_counterexample :
    max_size_industry [SchedAgent.firm bankruptFirm] 1 = .error .valueError ∧
    ∀ n : ℤ, max_size_industry [SchedAgent.firm bankruptFirm] 1 ≠ .ok n := by
  refine ⟨rfl, ?_⟩
  intro n h
  exact Except.noConfusion h

/-- C8 (amended): whenever the filter of `max_size_industry` selects no
firm, the function propagates the `ValueError` of the `max` builtin on an
empty sequence; it defines no fallback. -/
theorem C8_empty_max_raises (firms : List Firm) (t : ℤ)
    (h : (if t ≠ -2 then firms.filter (fun f => f.type = t)
          else firms.filter (fun f => f.type ≠ -1)) = []) :
    max_size_industry (firms.map SchedAgent.firm) t = .error .valueError := by
  unfold max_size_industry
  by_cases ht : t ≠ -2
  · rw [if_pos ht] at h
    simp [ht, employeesSectorList_firms, h, ok_bind, pyMax]
  · rw [if_neg ht] at h
    simp only [ne_eq, decide_not] at h
    simp [ht, employeesSolventList_firms, h, ok_bind, pyMax]

/-- Witness for C8: the empty-filter hypothesis discharged on a concrete
schedule with one bankrupt firm, queried for sector 0. -/
theorem C8_witness :
    max_size_industry [SchedAgent.firm bankruptFirm] 0 = .error .valueError :=
  C8_empty_max_raises [bankruptFirm] 0 (by decide)

/-- C7 counterexample: with `nsteps = 1` and every firm bankrupt, the step
that brings the counter to the horizon raises `ValueError` inside
`max_size_industry` (no services firm survives) before reaching the halt
check, so `running` stays `true` even though the counter reached
`nsteps` — the claim's "halts exactly at step N" fails. -/
theorem C7_counterexample :
    s0.nsteps = 1 ∧ s0.steps = 0 ∧ s0.running = true ∧
    ((modelStep s0 d0).1).steps = 1 ∧
    (modelStep s0 d0).2 = some PyErr.valueError ∧
    ((modelStep s0 d0).1).running = true := by
  norm_num [s0, d0, modelStep, updateMetrics, stepAgents, bankruptFirm,
    IndustryAgent.step, IndustryAgent.phases, IndustryAgent.bankrupt_check,
    collect, compute_gdp, gdpValues, agentType, agentValue, agentEmployees,
    agentRowsCheck, compute_employment, employeesAllList, employeesSolventList,
    employeesSectorList, max_size_industry, pyMax, ok_bind]

lemma updateMetrics_running (s : MState) :
    ((updateMetrics s).1).running = s.running := by
  unfold updateMetrics
  repeat' split
  all_goals rfl

lemma updateMetrics_steps (s : MState) :
    ((updateMetrics s).1).steps = s.steps := by
  unfold updateMetrics
  repeat' split
  all_goals rfl

lemma updateMetrics_nsteps (s : MState) :
    ((updateMetrics s).1).nsteps = s.nsteps := by
  unfold updateMetrics
  repeat' split
  all_goals rfl

/-- C7 (amended): `running` is assigned in exactly one place: a step that
completes without raising sets it to `false` precisely when the
incremented counter equals `nsteps`, and otherwise (including every step
that raises, e.g. when a sector has no surviving firm) `running` keeps its
previous value — no other condition ever sets it to `false`. -/
theorem C7_running_flag (s : MState) (d : ℕ → Draws) :
    ((modelStep s d).1).running =
      (if (modelStep s d).2 = none ∧ s.steps + 1 = s.nsteps then false
       else s.running) := by
  unfold modelStep
  rcases hA : stepAgents d s.agents 0 with ⟨ags, e⟩
  cases e with
  | some err => simp
  | none =>
    rcases hB : updateMetrics { s with agents := ags, steps := s.steps + 1 } with ⟨s2, e2⟩
    have hr : s2.running = s.running := by
      have h := updateMetrics_running { s with agents := ags, steps := s.steps + 1 }
      rw [hB] at h
      exact h
    have hst : s2.steps = s.steps + 1 := by
      have h := updateMetrics_steps { s with agents := ags, steps := s.steps + 1 }
      rw [hB] at h
      exact h
    have hns : s2.nsteps = s.nsteps := by
      have h := updateMetrics_nsteps { s with agents := ags, steps := s.steps + 1 }
      rw [hB] at h
      exact h
    simp only [hB]
    cases e2 with
    | some err => simp [hr]
    | none =>
      by_cases hh : s2.steps = s2.nsteps
      · have hc : s.steps + 1 = s.nsteps := by rw [← hst, ← hns]; exact hh
        simp [hh, hc]
      · have hc : ¬ (s.steps + 1 = s.nsteps) := by
          intro hc
          exact hh (by rw [hst, hns]; exact hc)
        simp [hh, hc, hr]

lemma raises_bind {α β : Type} (x : Except PyErr α) (g : α → Except PyErr β)
    (h : ∀ a, raises (g a) = true) : raises (x >>= g) = true := by
  cases x with
  | error e => rfl
  | ok a => exact h a

lemma pyRangeOf_mul_float (a : PyNum) (q : ℚ) :
    pyRangeOf (pyMul a (.float q)) = .error .typeError := by
  cases a <;> rfl

lemma pyRangeList_length (a b : ℤ) : (pyRangeList a b).length = (b - a).toNat := by
  unfold pyRangeList
  rw [List.length_map, List.length_range]

lemma pVec_length (dr : List ℚ) (n : ℤ) : (pVec dr n).length = (n - 1).toNat := by
  unfold pVec
  rw [List.length_map, pyRangeList_length]
  norm_num

/-- The assignment `self.n_workers = n_workers * 1.e6` yields a Python float whatever the
type of the `n_workers` argument, so `range(self.n_workers)` raises
`TypeError` on every configuration; consequently `__init__` never
returns. -/
lemma modelInit_raises (cfg : Config) (yD xD : List ℚ) (tD : List ℤ)
    (wD : ℕ → ℤ × ℤ) : raises (modelInit cfg yD xD tD wD) = true := by
  simp only [modelInit]
  refine raises_bind _ _ (fun nc => ?_)
  refine raises_bind _ _ (fun pi => ?_)
  refine raises_bind _ _ (fun ps => ?_)
  refine raises_bind _ _ (fun fr => ?_)
  refine raises_bind _ _ (fun tys => ?_)
  rw [pyRangeOf_mul_float]
  rfl

lemma modelInit_default_eval :
    modelInit defaultConfig [] [] [] (fun _ => (0, 0)) = .error .typeError := by
  norm_num [modelInit, defaultConfig, pyMul, PyNum.val, pyDivQ, npChoiceP,
    pyRangeOf, ok_bind, error_bind]

lemma modelInit_zeroWorkers_eval :
    modelInit zeroWorkersConfig [] [] [] (fun _ => (0, 0)) = .error .typeError := by
  norm_num [modelInit, zeroWorkersConfig, defaultConfig, pyMul, PyNum.val,
    pyDivQ, npChoiceP, pyRangeOf, ok_bind, error_bind]

lemma modelInit_negWidth_eval :
    modelInit negWidthConfig [] [] [] (fun _ => (0, 0)) = .error .valueError := by
  norm_num [modelInit, negWidthConfig, defaultConfig, pyMul, PyNum.val,
    pyDivQ, npChoiceP, pyRangeOf, ok_bind, error_bind]

/-- C3: `EconomicSystemModel.__init__` raises on every configuration and
every family of draws, rather than returning a model: `range(self.n_workers)`
is applied to a float; moreover the placement vector `pVec` has `n - 1`
entries while `np.random.choice(np.arange(n), p=...)` demands `n`, and the
`IndustryAgent` call passes 8 positional arguments to a 4-parameter
`__init__`. -/
theorem C3_init_always_raises :
    (∀ (cfg : Config) (yD xD : List ℚ) (tD : List ℤ) (wD : ℕ → ℤ × ℤ),
      raises (modelInit cfg yD xD tD wD) = true) ∧
    (∀ (dr : List ℚ) (n : ℤ), (pVec dr n).length = (n - 1).toNat) ∧
    (∀ (dr : List ℚ) (n w : ℤ), 1 ≤ n →
      npArangeChoice n (pVec dr n) w = .error .valueError) ∧
    checkArity industryAgentParamCount 8 = .error .typeError := by
  refine ⟨modelInit_raises, ?_, ?_, rfl⟩
  · intro dr n
    exact pVec_length dr n
  · intro dr n w hn
    unfold npArangeChoice
    rw [if_pos]
    have h1 : (pyRangeList 0 n).length = n.toNat := by
      rw [pyRangeList_length]
      omega
    rw [h1, pVec_length]
    omega

/-- Witness for C3: the always-raises fact and the probability-vector
mismatch evaluated at the default grid height. -/
theorem C3_witness :
    raises (modelInit defaultConfig [] [] [] (fun _ => (0, 0))) = true ∧
    npArangeChoice 10 (pVec [] 10) 0 = .error .valueError :=
  ⟨C3_init_always_raises.1 defaultConfig [] [] [] (fun _ => (0, 0)),
   C3_init_always_raises.2.2.1 [] 10 0 (by norm_num)⟩

/-- C9 counterexample: if construction validated its inputs, the sensible
default configuration would construct a model and a nonsensical one would
fail with an explicit configuration error. Instead the default
configuration itself fails — with the accidental `TypeError` of
`range(float)` — and a negative grid width fails with numpy's
`ValueError` about the probability vector: neither failure comes from any
validation, and no value is clamped. -/
theorem C9_counterexample :
    modelInit defaultConfig [] [] [] (fun _ => (0, 0)) = .error .typeError ∧
    modelInit negWidthConfig [] [] [] (fun _ => (0, 0)) = .error .valueError :=
  ⟨modelInit_default_eval, modelInit_negWidth_eval⟩

/-- C9 (amended): the constructor performs no input validation at all: it
fails on every configuration, and a nonsensical configuration (zero
workers) fails with exactly the same accidental `TypeError` as the
sensible default — there is no explicit configuration error and no
clamping. -/
theorem C9_no_validation :
    (∀ (cfg : Config) (yD xD : List ℚ) (tD : List ℤ) (wD : ℕ → ℤ × ℤ),
      raises (modelInit cfg yD xD tD wD) = true) ∧
    modelInit zeroWorkersConfig [] [] [] (fun _ => (0, 0)) =
      modelInit defaultConfig [] [] [] (fun _ => (0, 0)) := by
  refine ⟨modelInit_raises, ?_⟩
  rw [modelInit_zeroWorkers_eval, modelInit_default_eval]

/-- C5: a firm that is solvent (type 0 or 1, `opex > 0`, `tax_rate ≤ 1`
per the data model) and satisfies the post-step bankruptcy bound on entry
(`capex ≥ -0.05·opex`, `employees ≥ 1`, `stocks ≥ 0`,
`profit_rate ≥ 1.001`) keeps `employees ≥ 1` through `step` for every
achievable draw; in the firing branch `max_fires` is strictly below the
headcount, so firing never empties the firm. -/
theorem C5_employees_ge_one (f : Firm) (s : ℚ) (coin : Bool) (hi fr : ℤ)
    (htype : f.type = 0 ∨ f.type = 1)
    (hopex : 0 < f.opex)
    (htax : f.tax_rate ≤ 1)
    (hcapex : -(1 / 20) * f.opex ≤ f.capex)
    (hemp : 1 ≤ f.employees)
    (hstocks : 0 ≤ f.stocks)
    (hpr : 1001 / 1000 ≤ f.profit_rate)
    (hs_lo : (if f.type = 0 then (94 / 100 : ℚ) else 90 / 100) *
        (IndustryAgent.run_production f).products_value ≤ s)
    (hs_hi : s ≤ (IndustryAgent.run_production f).products_value)
    (hhi : 1 ≤ hi)
    (hfr_lo : 0 ≤ fr)
    (hfr_hi : fr ≤ IndustryAgent.max_fires (IndustryAgent.afterTax f s)) :
    1 ≤ (IndustryAgent.step f s coin hi fr).employees ∧
    (¬ (IndustryAgent.afterTax f s).capex > 0 →
      IndustryAgent.max_fires (IndustryAgent.afterTax f s) <
        (IndustryAgent.afterTax f s).employees) := by
  have gopex : (IndustryAgent.afterTax f s).opex = f.opex :=
    IndustryAgent.afterTax_opex f s
  have gemp : (IndustryAgent.afterTax f s).employees = f.employees :=
    IndustryAgent.afterTax_employees f s
  have gcap : (IndustryAgent.afterTax f s).capex =
      f.capex + ((s - f.opex) - (if s - f.opex > 0 then f.tax_rate * (s - f.opex) else 0)) :=
    IndustryAgent.afterTax_capex f s
  have hpv : (IndustryAgent.run_production f).products_value =
      f.profit_rate * f.opex + f.stocks := by
    simp [IndustryAgent.run_production]
  have hpv_lb : (1001 / 1000 : ℚ) * f.opex ≤ f.profit_rate * f.opex + f.stocks := by
    have h1 : (1001 / 1000 : ℚ) * f.opex ≤ f.profit_rate * f.opex :=
      mul_le_mul_of_nonneg_right hpr hopex.le
    linarith
  have hpv_pos : (0 : ℚ) < f.profit_rate * f.opex + f.stocks := by
    have : (0 : ℚ) < (1001 / 1000 : ℚ) * f.opex := by positivity
    linarith
  have hs9 : (9 / 10 : ℚ) * (f.profit_rate * f.opex + f.stocks) ≤ s := by
    rw [hpv] at hs_lo
    rcases htype with h0 | h1
    · rw [if_pos h0] at hs_lo
      nlinarith
    · rw [if_neg (by rw [h1]; norm_num)] at hs_lo
      linarith
  have hglb : -(1491 / 10000 : ℚ) * f.opex ≤ (IndustryAgent.afterTax f s).capex := by
    rw [gcap]
    by_cases hp : s - f.opex > 0
    · rw [if_pos hp]
      have h1 : (0 : ℚ) ≤ (s - f.opex) * (1 - f.tax_rate) :=
        mul_nonneg hp.le (by linarith)
      nlinarith
    · rw [if_neg hp]
      linarith
  have hlt : ¬ (IndustryAgent.afterTax f s).capex > 0 →
      IndustryAgent.max_fires (IndustryAgent.afterTax f s) <
        (IndustryAgent.afterTax f s).employees := by
    intro hc
    have hcle : (IndustryAgent.afterTax f s).capex ≤ 0 := not_lt.mp hc
    have he_pos : (0 : ℚ) < ((f.employees : ℤ) : ℚ) := by
      have : (1 : ℚ) ≤ ((f.employees : ℤ) : ℚ) := by exact_mod_cast hemp
      linarith
    have habs : |(IndustryAgent.afterTax f s).capex| < f.opex := by
      rw [abs_of_nonpos hcle]
      nlinarith
    have hratio : |(IndustryAgent.afterTax f s).capex| /
        (f.opex / ((f.employees : ℤ) : ℚ)) < ((f.employees : ℤ) : ℚ) := by
      rw [div_div_eq_mul_div, div_lt_iff hopex]
      have h2 : (0 : ℚ) ≤ |(IndustryAgent.afterTax f s).capex| := abs_nonneg _
      nlinarith
    rw [IndustryAgent.max_fires, IndustryAgent.employee_cost, gopex, gemp]
    exact Int.floor_lt.mpr hratio
  refine ⟨?_, hlt⟩
  have htypene : f.type ≠ -1 := by
    rcases htype with h | h <;> rw [h] <;> norm_num
  have hstep : (IndustryAgent.step f s coin hi fr).employees =
      (IndustryAgent.investment_decision (IndustryAgent.afterTax f s) coin hi fr).employees := by
    unfold IndustryAgent.step IndustryAgent.phases
    rw [if_pos htypene, IndustryAgent.bankrupt_check_employees]
  rw [hstep]
  unfold IndustryAgent.investment_decision
  split_ifs with hc hcoin hmh
  · show 1 ≤ (IndustryAgent.afterTax f s).employees + hi
    rw [gemp]
    omega
  · rw [gemp]; exact hemp
  · rw [gemp]; exact hemp
  · show 1 ≤ (IndustryAgent.afterTax f s).employees - fr
    have h3 := hlt hc
    rw [gemp] at h3 ⊢
    omega

/-- Witness for C5: all hypotheses discharged at a concrete solvent firm
and an achievable family of draws. -/
theorem C5_witness :
    1 ≤ (IndustryAgent.step exFirm 1000 false 1 0).employees ∧
    (¬ (IndustryAgent.afterTax exFirm 1000).capex > 0 →
      IndustryAgent.max_fires (IndustryAgent.afterTax exFirm 1000) <
        (IndustryAgent.afterTax exFirm 1000).employees) :=
  C5_employees_ge_one exFirm 1000 false 1 0
    (Or.inr (by norm_num [exFirm]))
    (by norm_num [exFirm])
    (by norm_num [exFirm])
    (by norm_num [exFirm])
    (by norm_num [exFirm])
    (by norm_num [exFirm])
    (by norm_num [exFirm])
    (by norm_num [exFirm, IndustryAgent.run_production])
    (by norm_num [exFirm, IndustryAgent.run_production])
    (by norm_num)
    (by norm_num)
    (by norm_num [exFirm, IndustryAgent.max_fires, IndustryAgent.employee_cost,
      IndustryAgent.afterTax, IndustryAgent.run_production, IndustryAgent.run_sells,
      IndustryAgent.pay_taxes])

end EconomicSystem
